import Mathlib

/-!
Verification of the go-mall concurrency core: the Redis distributed lock,
the resilient cache wrapper (retry + circuit breaker), the idempotent
order-created consumer, and the RabbitMQ reconnect backoff.

Each definition is a shallow embedding of the corresponding Go function;
machine integers are modelled as Nat/Int, fallible calls as Except/Option,
and the Redis server as an explicit store passed through each atomic
script evaluation.
-/

namespace GoMall

/-! ### Redis distributed lock (pkg/cache/lock.go)

The Redis server state relevant to the lock scripts: each key holds at
most one entry, an owner token plus an absolute expiry in milliseconds.
Lua scripts execute atomically, so each script evaluation is one function
from store to store. -/

/-- One Redis entry for a lock key: the owner token (the uuid of the
RedisLock instance that set it) and the absolute expiry time in ms. -/
structure LockEntry where
  token : String
  expiry : Nat
deriving DecidableEq, Repr

/-- The lock-related view of the Redis store: each key maps to at most one
entry. That a key maps to at most one entry is exactly what Redis
guarantees for a single key. -/
abbrev LockStore := String → Option LockEntry

/-- The empty store (no lock key set). -/
def lockEmpty : LockStore := fun _ => none

/-- Store update for SET key value PX expiry. -/
def LockStore.setKey (st : LockStore) (k : String) (e : LockEntry) : LockStore :=
  fun k2 => if k2 = k then some e else st k2

/-- Store update for DEL key. -/
def LockStore.delKey (st : LockStore) (k : String) : LockStore :=
  fun k2 => if k2 = k then none else st k2

/-- Redis GET with lazy expiration: an entry whose expiry has passed reads
as absent, exactly as an expired Redis key does. -/
def validGet (st : LockStore) (now : Nat) (k : String) : Option String :=
  match st k with
  | some e => if now < e.expiry then some e.token else none
  | none => none

/-- Evaluation of lockScript, the atomic
SET KEYS[1] ARGV[1] NX PX ARGV[2]: sets the key to the caller token with
expiry now + ttl iff no valid (non-expired) entry is present; the Bool is
true iff Redis replied OK, i.e. iff the set happened. -/
def evalLockScript (st : LockStore) (now : Nat) (k tok : String) (ttlMs : Nat) :
    LockStore × Bool :=
  match validGet st now k with
  | some _ => (st, false)
  | none => (st.setKey k ⟨tok, now + ttlMs⟩, true)

/-- Evaluation of unlockScript, the atomic
if GET KEYS[1] == ARGV[1] then DEL KEYS[1] (returns 1) else 0. -/
def evalUnlockScript (st : LockStore) (now : Nat) (k tok : String) :
    LockStore × Nat :=
  if validGet st now k = some tok then (st.delKey k, 1) else (st, 0)

/-- Evaluation of renewScript, the atomic
if GET KEYS[1] == ARGV[1] then PEXPIRE KEYS[1] ARGV[2] (returns 1) else 0. -/
def evalRenewScript (st : LockStore) (now : Nat) (k tok : String) (ttlMs : Nat) :
    LockStore × Nat :=
  if validGet st now k = some tok then (st.setKey k ⟨tok, now + ttlMs⟩, 1) else (st, 0)

/-- One iteration of RedisLock.Lock: a single Eval of lockScript; the loop
reports the lock acquired exactly when the script replied OK. -/
def lockAttempt (st : LockStore) (now : Nat) (key id : String) (ttlMs : Nat) :
    LockStore × Bool :=
  evalLockScript st now key id ttlMs

/-- Result of RedisLock.Unlock: nil, or the ownership error ErrLockNotHeld. -/
inductive UnlockResult
| ok
| errLockNotHeld
deriving DecidableEq, Repr

/-- RedisLock.Unlock: evaluates unlockScript and returns nil iff the script
deleted the key (count 1); any other count is ErrLockNotHeld. -/
def redisUnlock (st : LockStore) (now : Nat) (key id : String) :
    LockStore × UnlockResult :=
  match evalUnlockScript st now key id with
  | (st2, cnt) => (st2, if cnt = 1 then UnlockResult.ok else UnlockResult.errLockNotHeld)

/-- The atomic operations concurrent RedisLock instances can run against
the store; concurrency serializes into an arbitrary interleaving of these,
since each Lua script executes atomically. -/
inductive LockOp
| attempt (key tok : String) (ttlMs : Nat)
| unlock (key tok : String)
| renew (key tok : String) (ttlMs : Nat)
deriving DecidableEq, Repr

/-- Effect of one timestamped atomic operation on the store. -/
def stepOp (st : LockStore) (top : Nat × LockOp) : LockStore :=
  match top.2 with
  | LockOp.attempt k tok ttl => (evalLockScript st top.1 k tok ttl).1
  | LockOp.unlock k tok => (evalUnlockScript st top.1 k tok).1
  | LockOp.renew k tok ttl => (evalRenewScript st top.1 k tok ttl).1

/-- Store after an arbitrary interleaving of atomic lock operations. -/
def applyOps (st : LockStore) (ops : List (Nat × LockOp)) : LockStore :=
  ops.foldl stepOp st

/-- An instance holds the lock on key k at time now iff the store carries
its token, unexpired, under k. -/
def holdsLock (st : LockStore) (now : Nat) (k tok : String) : Prop :=
  validGet st now k = some tok

/-- Claim C1: after any interleaving of concurrent atomic lock operations,
at most one valid (non-expired) owner token exists per key at any instant,
so at most one caller holds the lock; and an acquisition attempt succeeds
only through the atomic SET NX PX step, exactly when no valid owner was
present, leaving the caller token as the unique valid owner. -/
theorem c1_lock_mutual_exclusion :
    (∀ (st0 : LockStore) (ops : List (Nat × LockOp)) (now : Nat) (k t1 t2 : String),
      holdsLock (applyOps st0 ops) now k t1 → holdsLock (applyOps st0 ops) now k t2 →
      t1 = t2) ∧
    (∀ (st : LockStore) (now : Nat) (key id : String) (ttlMs : Nat),
      0 < ttlMs → (lockAttempt st now key id ttlMs).2 = true →
      validGet st now key = none ∧
      validGet (lockAttempt st now key id ttlMs).1 now key = some id) ∧
    (∀ (st : LockStore) (now : Nat) (key id : String) (ttlMs : Nat),
      (lockAttempt st now key id ttlMs).2 = false →
      (lockAttempt st now key id ttlMs).1 = st) := by
  refine ⟨?uniq, ?acq, ?noacq⟩
  · intro st0 ops now k t1 t2 h1 h2
    unfold holdsLock at h1 h2
    rw [h1] at h2
    exact (Option.some.injEq _ _ ▸ h2)
  · intro st now key id ttlMs httl hacq
    cases hv : validGet st now key with
    | some t => simp [lockAttempt, evalLockScript, hv] at hacq
    | none =>
        refine ⟨rfl, ?_⟩
        simp only [lockAttempt, evalLockScript, hv]
        have hlt : now < now + ttlMs := Nat.lt_add_of_pos_right httl
        simp [validGet, LockStore.setKey, hlt]
  · intro st now key id ttlMs hno
    cases hv : validGet st now key with
    | some t => simp [lockAttempt, evalLockScript, hv]
    | none => simp [lockAttempt, evalLockScript, hv] at hno

/-- Witness for C1: in the empty store an attempt at time 0 with ttl 10000
succeeds and installs the caller token as the valid owner. -/
theorem c1_lock_mutual_exclusion_witness :
    validGet lockEmpty 0 "lock:sku:101" = none ∧
    validGet (lockAttempt lockEmpty 0 "lock:sku:101" "tok-a" 10000).1 0 "lock:sku:101"
      = some "tok-a" :=
  c1_lock_mutual_exclusion.2.1 lockEmpty 0 "lock:sku:101" "tok-a" 10000
    (by decide) (by decide)

/-- Claim C2: Unlock deletes the key iff the valid stored value equals the
caller token; on a non-match (absent, expired, or owned by another token)
it returns ErrLockNotHeld and leaves the store — including a newer owner
token — unchanged. -/
theorem c2_unlock_only_owner :
    (∀ (st : LockStore) (now : Nat) (key id : String),
      validGet st now key = some id →
      (redisUnlock st now key id).1 key = none ∧
      (redisUnlock st now key id).2 = UnlockResult.ok ∧
      ∀ k2, k2 ≠ key → (redisUnlock st now key id).1 k2 = st k2) ∧
    (∀ (st : LockStore) (now : Nat) (key id : String),
      validGet st now key ≠ some id →
      (redisUnlock st now key id).1 = st ∧
      (redisUnlock st now key id).2 = UnlockResult.errLockNotHeld) ∧
    (∀ (st : LockStore) (now : Nat) (key id other : String),
      validGet st now key = some other → other ≠ id →
      validGet (redisUnlock st now key id).1 now key = some other) := by
  refine ⟨?own, ?notown, ?newer⟩
  · intro st now key id h
    unfold redisUnlock evalUnlockScript
    rw [if_pos h]
    refine ⟨?_, rfl, ?_⟩
    · simp [LockStore.delKey]
    · intro k2 hk2
      simp [LockStore.delKey, hk2]
  · intro st now key id h
    unfold redisUnlock evalUnlockScript
    rw [if_neg h]
    exact ⟨rfl, rfl⟩
  · intro st now key id other hother hne
    have hnot : validGet st now key ≠ some id := by
      rw [hother]
      intro hcon
      exact hne (Option.some.injEq _ _ ▸ hcon)
    unfold redisUnlock evalUnlockScript
    rw [if_neg hnot]
    exact hother

/-- Witness for C2: unlocking with a stale token while a newer owner holds
the key fails with ErrLockNotHeld and preserves the newer owner. -/
theorem c2_unlock_only_owner_witness :
    validGet
      ((redisUnlock (LockStore.setKey lockEmpty "lock:sku:101" ⟨"tok-b", 5000⟩)
        100 "lock:sku:101" "tok-a").1) 100 "lock:sku:101" = some "tok-b" :=
  c2_unlock_only_owner.2.2 (LockStore.setKey lockEmpty "lock:sku:101" ⟨"tok-b", 5000⟩)
    100 "lock:sku:101" "tok-a" "tok-b" (by decide) (by decide)

/-! ### Resilient cache retry loop (pkg/cache, resilientCache.executeWithRetry)

The retry wrapper runs the operation up to 3 times. Before each attempt it
checks the caller context; a failed attempt is followed by a sleep of
10<<i ms that also observes the context. An operation returning a context
error is propagated without retry; after 3 failures the last error is
wrapped as "max retries exceeded". Cancellation is modelled by two
schedules: cb i is whether ctx.Done has fired at the check before attempt
i, cs i whether it fires during the sleep after attempt i. -/

/-- Outcome of one underlying cache call, as the retry loop classifies it:
success, a transient error, or a context (cancellation/deadline) error. -/
inductive CallRes (V : Type)
| ok (v : V)
| err
| ctxErr
deriving DecidableEq, Repr

/-- Result of the retry wrapper: the value, a propagated context error, or
the wrapped max-retries-exceeded error around the last transient error. -/
inductive RetryRes (V : Type)
| ok (v : V)
| ctxErr
| maxRetries
deriving DecidableEq, Repr

/-- The retry loop from attempt i with the given fuel (the Go loop runs
i = 0,1,2, i.e. fuel 3). Returns the result, the number of underlying
calls performed, and the list of completed backoff sleeps in ms. -/
def retryFrom (cb cs : Nat → Bool) (op : Nat → CallRes V) : Nat → Nat →
    RetryRes V × Nat × List Nat
  | _, 0 => (RetryRes.maxRetries, 0, [])
  | i, fuel + 1 =>
    if cb i then (RetryRes.ctxErr, 0, [])
    else
      match op i with
      | CallRes.ok v => (RetryRes.ok v, 1, [])
      | CallRes.ctxErr => (RetryRes.ctxErr, 1, [])
      | CallRes.err =>
        if cs i then (RetryRes.ctxErr, 1, [])
        else
          match retryFrom cb cs op (i + 1) fuel with
          | (r, n, sl) => (r, n + 1, (10 <<< i) :: sl)

/-- resilientCache.executeWithRetry, retry part: 3 attempts starting at
attempt index 0, with backoff 10<<i ms between attempts. -/
def executeWithRetry (cb cs : Nat → Bool) (op : Nat → CallRes V) :
    RetryRes V × Nat × List Nat :=
  retryFrom cb cs op 0 3

/-- Cancellation schedule that never fires. -/
def noCancel : Nat → Bool := fun _ => false

/-- Claim C4: with the circuit closed, two failures then a success yield
the success after exactly 3 underlying calls with backoff sleeps of 10ms
then 20ms between attempts; three consecutive failures yield the wrapped
max-retries error after exactly 3 calls with the same 10ms and 20ms
inter-attempt backoff; and a context signal — at the pre-attempt check,
during a backoff sleep, or returned by the operation — aborts at once with
no further underlying call. -/
theorem c4_retry_semantics :
    (∀ (op : Nat → CallRes V) (v : V),
      op 0 = CallRes.err → op 1 = CallRes.err → op 2 = CallRes.ok v →
      executeWithRetry noCancel noCancel op = (RetryRes.ok v, 3, [10, 20])) ∧
    (∀ (op : Nat → CallRes V),
      op 0 = CallRes.err → op 1 = CallRes.err → op 2 = CallRes.err →
      executeWithRetry noCancel noCancel op = (RetryRes.maxRetries, 3, [10, 20, 40])) ∧
    (∀ (cb cs : Nat → Bool) (op : Nat → CallRes V),
      cb 0 = true →
      executeWithRetry cb cs op = (RetryRes.ctxErr, 0, [])) ∧
    (∀ (cb cs : Nat → Bool) (op : Nat → CallRes V),
      cb 0 = false → op 0 = CallRes.err → cs 0 = true →
      executeWithRetry cb cs op = (RetryRes.ctxErr, 1, [])) ∧
    (∀ (cb cs : Nat → Bool) (op : Nat → CallRes V),
      cb 0 = false → op 0 = CallRes.ctxErr →
      executeWithRetry cb cs op = (RetryRes.ctxErr, 1, [])) := by
  refine ⟨?twoFail, ?threeFail, ?ctxPre, ?ctxSleep, ?ctxOp⟩
  · intro op v h0 h1 h2
    simp [executeWithRetry, retryFrom, noCancel, h0, h1, h2]
  · intro op h0 h1 h2
    simp [executeWithRetry, retryFrom, noCancel, h0, h1, h2]
  · intro cb cs op h0
    simp [executeWithRetry, retryFrom, h0]
  · intro cb cs op hb h0 hs
    simp [executeWithRetry, retryFrom, hb, h0, hs]
  · intro cb cs op hb h0
    simp [executeWithRetry, retryFrom, hb, h0]

/-- Witness for C4: an operation failing on attempts 0 and 1 and returning
0 on attempt 2 succeeds with exactly 3 underlying calls and sleeps of
10ms and 20ms. -/
theorem c4_retry_semantics_witness :
    executeWithRetry noCancel noCancel
      (fun i => if i < 2 then CallRes.err else CallRes.ok (0 : Nat))
      = (RetryRes.ok 0, 3, [10, 20]) :=
  c4_retry_semantics.1 (fun i => if i < 2 then CallRes.err else CallRes.ok (0 : Nat)) 0
    (by decide) (by decide) (by decide)

/-! ### RabbitMQ reconnect backoff (pkg/mq, rabbitMQ.reconnectLoop)

The reconnect loop sleeps reconnectDly before each connect attempt; after
a failed attempt it doubles the delay whenever it is still below
maxReconnectDelay, and resets it to defaultReconnectDelay on success. -/

/-- defaultReconnectDelay, in ms (1 second). -/
def defaultReconnectDelay : Nat := 1000

/-- maxReconnectDelay, in ms (30 seconds). -/
def maxReconnectDelay : Nat := 30000

/-- Backoff update after a failed connect attempt in reconnectLoop:
if reconnectDly < maxReconnectDelay then reconnectDly = reconnectDly * 2. -/
def nextReconnectDelay (d : Nat) : Nat :=
  if d < maxReconnectDelay then d * 2 else d

/-- Delay slept before the (n+1)-th consecutive connect attempt after a
connection loss, starting from the default 1s. -/
def reconnectDelay : Nat → Nat
  | 0 => defaultReconnectDelay
  | n + 1 => nextReconnectDelay (reconnectDelay n)

/-- Claim C8: the reconnect delays do start at 1s and double per failed
attempt, but the cap is violated: after five failed attempts the loop
sleeps 32s before the sixth attempt, which exceeds the 30s
maxReconnectDelay, and the delay then stays at 32s. The doubling guard
only tests the pre-doubling value, so the delay overshoots the cap. -/
theorem c8_reconnect_delay_exceeds_cap :
    reconnectDelay 0 = 1000 ∧ reconnectDelay 1 = 2000 ∧ reconnectDelay 2 = 4000 ∧
    reconnectDelay 3 = 8000 ∧ reconnectDelay 4 = 16000 ∧
    reconnectDelay 5 = 32000 ∧ maxReconnectDelay < reconnectDelay 5 ∧
    reconnectDelay 6 = 32000 := by
  decide

/-! ### Circuit breaker (pkg/cache, NewResilientCache settings)

NewResilientCache configures the breaker with a 30s open-state timeout and
the trip predicate requests >= 10 and failure ratio >= 0.5. The breaker
state machine itself lives in an external library, so its mechanics are
modelled from the spec; the trip predicate and the cooldown constant are
translated from NewResilientCache. -/

/-- Open-state cooldown from NewResilientCache: Timeout 30s, in ms. -/
def cbCooldown : Nat := 30000

/-- ReadyToTrip from NewResilientCache: requests >= 10 and
TotalFailures / Requests >= 0.5. Over these integer counts the float
comparison fail/req >= 0.5 holds exactly when req <= 2 * fail, so the
predicate is stated over the integers directly. -/
def readyToTrip (req fails : Nat) : Bool :=
  decide (10 ≤ req ∧ req ≤ 2 * fails)

/-- Circuit state: Closed, Open, or HalfOpen. -/
inductive CBState
| closed
| opened
| halfOpen
deriving DecidableEq, Repr

/-- Breaker bookkeeping: state, the rolling window of request and failure
counts, and the time (ms) the circuit last opened. -/
structure Breaker where
  state : CBState
  requests : Nat
  failures : Nat
  openedAt : Nat
deriving DecidableEq, Repr

/-- Modelled from the spec: the half-open trial — a single probe call is
allowed through; success closes the circuit and clears the window, failure
reopens it from now. -/
def cbTrial (now : Nat) (succeeds : Bool) : Breaker :=
  if succeeds then ⟨CBState.closed, 0, 0, 0⟩
  else ⟨CBState.opened, 0, 0, now⟩

/-- Modelled from the spec: one request through the circuit breaker (the
breaker library is an external dependency, not part of this repository;
"opens once a rolling window has >=10 requests and >=50% failures; after a
cooldown, half-opens to allow one trial; success closes, failure reopens";
while open every call is rejected immediately without touching the store).
succeeds is the outcome the underlying operation would have. Returns the
new breaker and whether the underlying operation was invoked. -/
def cbCall (b : Breaker) (now : Nat) (succeeds : Bool) : Breaker × Bool :=
  match b.state with
  | CBState.closed =>
    let req := b.requests + 1
    let fails := if succeeds then b.failures else b.failures + 1
    if readyToTrip req fails then (⟨CBState.opened, 0, 0, now⟩, true)
    else (⟨CBState.closed, req, fails, b.openedAt⟩, true)
  | CBState.opened =>
    if now < b.openedAt + cbCooldown then (b, false)
    else (cbTrial now succeeds, true)
  | CBState.halfOpen => (cbTrial now succeeds, true)

/-- Claim C5: in the closed state every call reaches the store and the
circuit opens exactly when the window reaches at least 10 requests with at
least a 50% failure ratio; while open and within the 30s cooldown every
call is rejected with zero underlying calls and no state change; once the
cooldown has elapsed the call is exactly the half-open single trial, whose
success closes the circuit and whose failure reopens it from now. -/
theorem c5_circuit_breaker :
    (∀ (b : Breaker) (now : Nat) (succeeds : Bool),
      b.state = CBState.closed →
      (cbCall b now succeeds).2 = true ∧
      ((cbCall b now succeeds).1.state = CBState.opened ↔
        readyToTrip (b.requests + 1)
          (if succeeds then b.failures else b.failures + 1) = true)) ∧
    (∀ (b : Breaker) (now : Nat) (succeeds : Bool),
      b.state = CBState.opened → now < b.openedAt + cbCooldown →
      cbCall b now succeeds = (b, false)) ∧
    (∀ (b : Breaker) (now : Nat) (succeeds : Bool),
      b.state = CBState.opened → b.openedAt + cbCooldown ≤ now →
      cbCall b now succeeds = (cbTrial now succeeds, true) ∧
      cbCall b now succeeds
        = cbCall ⟨CBState.halfOpen, b.requests, b.failures, b.openedAt⟩ now succeeds ∧
      (cbCall b now succeeds).1.state
        = (if succeeds then CBState.closed else CBState.opened) ∧
      (succeeds = false → (cbCall b now succeeds).1.openedAt = now)) := by
  refine ⟨?closed, ?rejected, ?trial⟩
  · intro b now succeeds hst
    cases hr : readyToTrip (b.requests + 1)
        (if succeeds then b.failures else b.failures + 1) with
    | true => simp [cbCall, hst, hr]
    | false => simp [cbCall, hst, hr]
  · intro b now succeeds hst hcool
    simp [cbCall, hst, hcool]
  · intro b now succeeds hst hcool
    have hnot : ¬ now < b.openedAt + cbCooldown := Nat.not_lt.mpr hcool
    cases succeeds with
    | true => simp [cbCall, cbTrial, hst, hnot]
    | false => simp [cbCall, cbTrial, hst, hnot]

/-- Witness for C5: from a closed breaker with 9 requests and 5 failures,
a 10th request that fails trips the circuit (10 requests, 6 failures,
ratio 60%), and the underlying store was still called for it. -/
theorem c5_circuit_breaker_witness :
    (cbCall ⟨CBState.closed, 9, 5, 0⟩ 100 false).2 = true ∧
    ((cbCall ⟨CBState.closed, 9, 5, 0⟩ 100 false).1.state = CBState.opened ↔
      readyToTrip (9 + 1) (5 + 1) = true) :=
  by
    have h := c5_circuit_breaker.1 ⟨CBState.closed, 9, 5, 0⟩ 100 false rfl
    exact h

/-! ### Inventory deduction and the order worker
(internal/service/inventory_service.go and the worker package)

The cache keys involved are "stock:sku:%d" and "processed:order:%d"; both
formats are injective in the numeric id, so the store is indexed by the id
directly. Stock values are written as Go ints and read back through
strconv.Atoi, an exact round trip, so they are modelled as integers (the
data-corruption branch for a non-numeric stored string is unreachable in
this model). A missing stock key reads as the empty string, which
DeductStock treats as stock 0. The stock update newStock :=
currentStock - quantity is Go int arithmetic and therefore wraps in
two's-complement int64, modelled by wrapInt64. Infrastructure failures of the fallible
calls (lock acquisition, cache Get/Set/SetNX/Del) are injected through
explicit fault flags, one per call site, mirroring where each call can
return an error. -/

/-- Stock table: SKU id to the stored integer stock; none means the key is
absent from the cache. -/
abbrev StockTable := Nat → Option Int

/-- Stock as DeductStock reads it: a missing key ("" from Get) parses to a
currentStock of 0. -/
def stockOf (tbl : StockTable) (sku : Nat) : Int :=
  (tbl sku).getD 0

/-- Cache Set of the stock key for a SKU. -/
def setStock (tbl : StockTable) (sku : Nat) (v : Int) : StockTable :=
  fun s => if s = sku then some v else tbl s

/-- Errors DeductStock can return: the terminal ErrInsufficientStock, or a
transient infrastructure failure (wrapped lock/Get/Set error). -/
inductive DeductErr
| insufficientStock
| transient
deriving DecidableEq, Repr

/-- Fault injection for one DeductStock run: whether the lock acquisition,
the stock Get, or the stock Set fails with an infrastructure error. -/
structure DeductFaults where
  lockFail : Bool
  getFail : Bool
  setFail : Bool
deriving DecidableEq, Repr

/-- A fault-free DeductStock run. -/
def noDeductFaults : DeductFaults := ⟨false, false, false⟩

/-- Two's-complement int64 wrap: the value a Go int holds after an
arithmetic operation whose exact result is n. -/
def wrapInt64 (n : Int) : Int :=
  (n + 2 ^ 63) % 2 ^ 64 - 2 ^ 63

/-- InventoryService.DeductStock: acquire the SKU lock, Get the stock
(missing key reads as 0), return ErrInsufficientStock when
currentStock < quantity, otherwise Set the decremented value and release
the lock. The subtraction is Go int arithmetic, so the written value is
the two's-complement wrap of currentStock - quantity. On success the new
table is returned; exactly the ok result performed a stock write. -/
def DeductStock (tbl : StockTable) (sku : Nat) (quantity : Int)
    (f : DeductFaults) : Except DeductErr StockTable :=
  if f.lockFail then Except.error DeductErr.transient
  else if f.getFail then Except.error DeductErr.transient
  else if stockOf tbl sku < quantity then Except.error DeductErr.insufficientStock
  else if f.setFail then Except.error DeductErr.transient
  else Except.ok (setStock tbl sku (wrapInt64 (stockOf tbl sku - quantity)))

/-- The order-created event payload. -/
structure OrderMessage where
  orderID : Nat
  skuID : Nat
  quantity : Int
deriving DecidableEq, Repr

/-- A delivered message body: either a payload json.Unmarshal rejects
(poison), or a parsed OrderMessage. -/
inductive Body
| poison
| msg (m : OrderMessage)
deriving DecidableEq, Repr

/-- The store state the worker touches: the idempotency markers (order id
to marker presence, key "processed:order:%d") and the stock table. -/
structure WorkerState where
  markers : Nat → Bool
  stock : StockTable

/-- Marker update (SetNX sets it, Del removes it). -/
def setMarker (ms : Nat → Bool) (oid : Nat) (v : Bool) : Nat → Bool :=
  fun o => if o = oid then v else ms o

/-- Fault injection for one handleOrderCreated run: whether the SetNX
idempotency check errors, the faults of the inner DeductStock, and whether
the rollback Del of the marker errors. -/
structure HandleFaults where
  setnxFail : Bool
  deduct : DeductFaults
  delFail : Bool
deriving DecidableEq, Repr

/-- A fault-free handleOrderCreated run. -/
def noHandleFaults : HandleFaults := ⟨false, noDeductFaults, false⟩

/-- Errors handleOrderCreated can return (a non-nil return makes the mq
layer nack the message; nil makes it ack). -/
inductive HandleErr
| idemCheckFailed
| deductFailed (e : DeductErr)
deriving DecidableEq, Repr

/-- Result of one handleOrderCreated run: the store state afterwards, the
returned error (none is nil, so the message is acked), and the number of
stock writes performed. -/
structure HandleResult where
  state : WorkerState
  ret : Option HandleErr
  stockWrites : Nat

/-- OrderWorker.handleOrderCreated: a poison payload is acked; the SetNX
idempotency check errors propagate (nack); a present marker means a
duplicate, acked untouched; otherwise the marker is set and DeductStock
runs — ok is acked, ErrInsufficientStock is acked keeping the marker, and
a transient error deletes the marker (unless that Del itself fails, which
is only logged) and propagates the deduction error. -/
def handleOrderCreated (s : WorkerState) (body : Body) (f : HandleFaults) :
    HandleResult :=
  match body with
  | Body.poison => ⟨s, none, 0⟩
  | Body.msg m =>
    if f.setnxFail then ⟨s, some HandleErr.idemCheckFailed, 0⟩
    else if s.markers m.orderID then ⟨s, none, 0⟩
    else
      let s1 : WorkerState := ⟨setMarker s.markers m.orderID true, s.stock⟩
      match DeductStock s1.stock m.skuID m.quantity f.deduct with
      | Except.ok tbl2 => ⟨⟨s1.markers, tbl2⟩, none, 1⟩
      | Except.error DeductErr.insufficientStock => ⟨s1, none, 0⟩
      | Except.error DeductErr.transient =>
        if f.delFail then ⟨s1, some (HandleErr.deductFailed DeductErr.transient), 0⟩
        else ⟨⟨setMarker s1.markers m.orderID false, s1.stock⟩,
          some (HandleErr.deductFailed DeductErr.transient), 0⟩

/-- Claim C3: delivering the same order-created message twice performs
exactly one stock mutation — the first delivery sets the idempotency
marker and deducts (one stock write), the second finds the marker present
and returns nil with no stock write, leaving the state untouched. -/
theorem c3_duplicate_delivery_single_mutation (s : WorkerState) (m : OrderMessage)
    (hm : s.markers m.orderID = false)
    (hq : m.quantity ≤ stockOf s.stock m.skuID) :
    (handleOrderCreated s (Body.msg m) noHandleFaults).stockWrites = 1 ∧
    (handleOrderCreated s (Body.msg m) noHandleFaults).state.markers m.orderID = true ∧
    (handleOrderCreated (handleOrderCreated s (Body.msg m) noHandleFaults).state
      (Body.msg m) noHandleFaults).ret = none ∧
    (handleOrderCreated (handleOrderCreated s (Body.msg m) noHandleFaults).state
      (Body.msg m) noHandleFaults).stockWrites = 0 ∧
    (handleOrderCreated (handleOrderCreated s (Body.msg m) noHandleFaults).state
      (Body.msg m) noHandleFaults).state
      = (handleOrderCreated s (Body.msg m) noHandleFaults).state := by
  have hlt : ¬ stockOf s.stock m.skuID < m.quantity := not_lt.mpr hq
  simp [handleOrderCreated, DeductStock, noHandleFaults, noDeductFaults, hm, hlt,
    setMarker]

/-- Witness for C3: stock 5, quantity 3, fresh order 7: first delivery
writes once and sets the marker; the redelivery acks without writing. -/
theorem c3_duplicate_delivery_single_mutation_witness :
    (handleOrderCreated ⟨fun _ => false, fun _ => some 5⟩
      (Body.msg ⟨7, 101, 3⟩) noHandleFaults).stockWrites = 1 ∧
    (handleOrderCreated ⟨fun _ => false, fun _ => some 5⟩
      (Body.msg ⟨7, 101, 3⟩) noHandleFaults).state.markers
        (OrderMessage.mk 7 101 3).orderID = true ∧
    (handleOrderCreated (handleOrderCreated ⟨fun _ => false, fun _ => some 5⟩
      (Body.msg ⟨7, 101, 3⟩) noHandleFaults).state
      (Body.msg ⟨7, 101, 3⟩) noHandleFaults).ret = none ∧
    (handleOrderCreated (handleOrderCreated ⟨fun _ => false, fun _ => some 5⟩
      (Body.msg ⟨7, 101, 3⟩) noHandleFaults).state
      (Body.msg ⟨7, 101, 3⟩) noHandleFaults).stockWrites = 0 ∧
    (handleOrderCreated (handleOrderCreated ⟨fun _ => false, fun _ => some 5⟩
      (Body.msg ⟨7, 101, 3⟩) noHandleFaults).state
      (Body.msg ⟨7, 101, 3⟩) noHandleFaults).state
      = (handleOrderCreated ⟨fun _ => false, fun _ => some 5⟩
        (Body.msg ⟨7, 101, 3⟩) noHandleFaults).state :=
  c3_duplicate_delivery_single_mutation ⟨fun _ => false, fun _ => some 5⟩
    ⟨7, 101, 3⟩ rfl (by decide)

/-- Claim C6: a quantity exceeding the current stock yields a nil return
(the message is acked, never retried), no stock write, an unchanged stock
table, and the idempotency marker still present afterwards. -/
theorem c6_insufficient_stock_acked (s : WorkerState) (m : OrderMessage)
    (hm : s.markers m.orderID = false)
    (hq : stockOf s.stock m.skuID < m.quantity) :
    (handleOrderCreated s (Body.msg m) noHandleFaults).ret = none ∧
    (handleOrderCreated s (Body.msg m) noHandleFaults).stockWrites = 0 ∧
    (handleOrderCreated s (Body.msg m) noHandleFaults).state.stock = s.stock ∧
    (handleOrderCreated s (Body.msg m) noHandleFaults).state.markers m.orderID
      = true := by
  simp [handleOrderCreated, DeductStock, noHandleFaults, noDeductFaults, hm, hq,
    setMarker]

/-- Witness for C6: stock 5, quantity 9: the message is acked with no
stock mutation and the marker kept. -/
theorem c6_insufficient_stock_acked_witness :
    (handleOrderCreated ⟨fun _ => false, fun _ => some 5⟩
      (Body.msg ⟨8, 101, 9⟩) noHandleFaults).ret = none ∧
    (handleOrderCreated ⟨fun _ => false, fun _ => some 5⟩
      (Body.msg ⟨8, 101, 9⟩) noHandleFaults).stockWrites = 0 ∧
    (handleOrderCreated ⟨fun _ => false, fun _ => some 5⟩
      (Body.msg ⟨8, 101, 9⟩) noHandleFaults).state.stock = (fun _ => some 5) ∧
    (handleOrderCreated ⟨fun _ => false, fun _ => some 5⟩
      (Body.msg ⟨8, 101, 9⟩) noHandleFaults).state.markers
        (OrderMessage.mk 8 101 9).orderID = true :=
  c6_insufficient_stock_acked ⟨fun _ => false, fun _ => some 5⟩ ⟨8, 101, 9⟩
    rfl (by decide)

/-- Claim C7: a transient (non insufficient-stock) deduction failure makes
the handler delete the idempotency marker and return the error (so the
message is nacked); afterwards the marker is absent and the stock is
untouched, and a fault-free redelivery with sufficient stock runs the
deduction as a fresh order. -/
theorem c7_transient_error_rolls_back_marker (s : WorkerState) (m : OrderMessage)
    (f : DeductFaults)
    (hm : s.markers m.orderID = false)
    (hd : DeductStock s.stock m.skuID m.quantity f
      = Except.error DeductErr.transient) :
    (handleOrderCreated s (Body.msg m) ⟨false, f, false⟩).ret
      = some (HandleErr.deductFailed DeductErr.transient) ∧
    (handleOrderCreated s (Body.msg m) ⟨false, f, false⟩).state.markers m.orderID
      = false ∧
    (handleOrderCreated s (Body.msg m) ⟨false, f, false⟩).state.stock = s.stock ∧
    (handleOrderCreated s (Body.msg m) ⟨false, f, false⟩).stockWrites = 0 ∧
    (m.quantity ≤ stockOf s.stock m.skuID →
      (handleOrderCreated (handleOrderCreated s (Body.msg m) ⟨false, f, false⟩).state
        (Body.msg m) noHandleFaults).stockWrites = 1) := by
  refine ⟨?_, ?_, ?_, ?_, ?_⟩
  · simp [handleOrderCreated, hm, hd]
  · simp [handleOrderCreated, hm, hd, setMarker]
  · simp [handleOrderCreated, hm, hd]
  · simp [handleOrderCreated, hm, hd]
  · intro hq
    have hlt : ¬ stockOf s.stock m.skuID < m.quantity := not_lt.mpr hq
    have hrun : handleOrderCreated s (Body.msg m) ⟨false, f, false⟩
        = ⟨⟨setMarker (setMarker s.markers m.orderID true) m.orderID false, s.stock⟩,
          some (HandleErr.deductFailed DeductErr.transient), 0⟩ := by
      simp [handleOrderCreated, hm, hd]
    rw [hrun]
    simp [handleOrderCreated, DeductStock, noHandleFaults, noDeductFaults,
      setMarker, hlt]

/-- Witness for C7: a lock-acquisition failure during deduction returns
the transient error with the marker rolled back, and the redelivery on the
resulting state performs the deduction. -/
theorem c7_transient_error_rolls_back_marker_witness :
    (handleOrderCreated ⟨fun _ => false, fun _ => some 5⟩ (Body.msg ⟨7, 101, 3⟩)
      ⟨false, ⟨true, false, false⟩, false⟩).ret
      = some (HandleErr.deductFailed DeductErr.transient) ∧
    (handleOrderCreated ⟨fun _ => false, fun _ => some 5⟩ (Body.msg ⟨7, 101, 3⟩)
      ⟨false, ⟨true, false, false⟩, false⟩).state.markers
        (OrderMessage.mk 7 101 3).orderID = false ∧
    (handleOrderCreated ⟨fun _ => false, fun _ => some 5⟩ (Body.msg ⟨7, 101, 3⟩)
      ⟨false, ⟨true, false, false⟩, false⟩).state.stock = (fun _ => some 5) ∧
    (handleOrderCreated ⟨fun _ => false, fun _ => some 5⟩ (Body.msg ⟨7, 101, 3⟩)
      ⟨false, ⟨true, false, false⟩, false⟩).stockWrites = 0 ∧
    ((OrderMessage.mk 7 101 3).quantity
        ≤ stockOf (fun _ => some 5) (OrderMessage.mk 7 101 3).skuID →
      (handleOrderCreated
        (handleOrderCreated ⟨fun _ => false, fun _ => some 5⟩ (Body.msg ⟨7, 101, 3⟩)
          ⟨false, ⟨true, false, false⟩, false⟩).state
        (Body.msg ⟨7, 101, 3⟩) noHandleFaults).stockWrites = 1) :=
  c7_transient_error_rolls_back_marker ⟨fun _ => false, fun _ => some 5⟩
    ⟨7, 101, 3⟩ ⟨true, false, false⟩ rfl rfl

/-- Claim C9: when the rollback Del of the marker itself fails after a
transient deduction error, the handler still returns the original
deduction error but the marker stays present, so every fault-free
redelivery of the order is acked as a duplicate with no stock write and no
state change. -/
theorem c9_failed_rollback_swallows_order (s : WorkerState) (m : OrderMessage)
    (f : DeductFaults)
    (hm : s.markers m.orderID = false)
    (hd : DeductStock s.stock m.skuID m.quantity f
      = Except.error DeductErr.transient) :
    (handleOrderCreated s (Body.msg m) ⟨false, f, true⟩).ret
      = some (HandleErr.deductFailed DeductErr.transient) ∧
    (handleOrderCreated s (Body.msg m) ⟨false, f, true⟩).state.markers m.orderID
      = true ∧
    (handleOrderCreated s (Body.msg m) ⟨false, f, true⟩).stockWrites = 0 ∧
    (handleOrderCreated (handleOrderCreated s (Body.msg m) ⟨false, f, true⟩).state
      (Body.msg m) noHandleFaults).ret = none ∧
    (handleOrderCreated (handleOrderCreated s (Body.msg m) ⟨false, f, true⟩).state
      (Body.msg m) noHandleFaults).stockWrites = 0 ∧
    (handleOrderCreated (handleOrderCreated s (Body.msg m) ⟨false, f, true⟩).state
      (Body.msg m) noHandleFaults).state
      = (handleOrderCreated s (Body.msg m) ⟨false, f, true⟩).state := by
  simp [handleOrderCreated, noHandleFaults, hm, hd, setMarker]

/-- Witness for C9: a get failure during deduction with a failing rollback
Del leaves the marker set, and the redelivery is acked as a duplicate. -/
theorem c9_failed_rollback_swallows_order_witness :
    (handleOrderCreated ⟨fun _ => false, fun _ => some 5⟩ (Body.msg ⟨7, 101, 3⟩)
      ⟨false, ⟨false, true, false⟩, true⟩).ret
      = some (HandleErr.deductFailed DeductErr.transient) ∧
    (handleOrderCreated ⟨fun _ => false, fun _ => some 5⟩ (Body.msg ⟨7, 101, 3⟩)
      ⟨false, ⟨false, true, false⟩, true⟩).state.markers
        (OrderMessage.mk 7 101 3).orderID = true ∧
    (handleOrderCreated ⟨fun _ => false, fun _ => some 5⟩ (Body.msg ⟨7, 101, 3⟩)
      ⟨false, ⟨false, true, false⟩, true⟩).stockWrites = 0 ∧
    (handleOrderCreated
      (handleOrderCreated ⟨fun _ => false, fun _ => some 5⟩ (Body.msg ⟨7, 101, 3⟩)
        ⟨false, ⟨false, true, false⟩, true⟩).state
      (Body.msg ⟨7, 101, 3⟩) noHandleFaults).ret = none ∧
    (handleOrderCreated
      (handleOrderCreated ⟨fun _ => false, fun _ => some 5⟩ (Body.msg ⟨7, 101, 3⟩)
        ⟨false, ⟨false, true, false⟩, true⟩).state
      (Body.msg ⟨7, 101, 3⟩) noHandleFaults).stockWrites = 0 ∧
    (handleOrderCreated
      (handleOrderCreated ⟨fun _ => false, fun _ => some 5⟩ (Body.msg ⟨7, 101, 3⟩)
        ⟨false, ⟨false, true, false⟩, true⟩).state
      (Body.msg ⟨7, 101, 3⟩) noHandleFaults).state
      = (handleOrderCreated ⟨fun _ => false, fun _ => some 5⟩ (Body.msg ⟨7, 101, 3⟩)
        ⟨false, ⟨false, true, false⟩, true⟩).state :=
  c9_failed_rollback_swallows_order ⟨fun _ => false, fun _ => some 5⟩
    ⟨7, 101, 3⟩ ⟨false, true, false⟩ rfl rfl

/-- A value already inside the int64 range is its own wrap. -/
theorem wrapInt64_eq_of_range {n : Int} (h1 : -(2 ^ 63) ≤ n) (h2 : n < 2 ^ 63) :
    wrapInt64 n = n := by
  unfold wrapInt64
  have hp : (2 : Int) ^ 64 = 2 ^ 63 + 2 ^ 63 := by norm_num
  rw [Int.emod_eq_of_lt (by linarith) (by linarith)]
  ring

/-- Counterexample to claim C10 as stated: at the reachable quantity
q = -2^63 (math.MinInt64) with stored stock 5 the hypotheses of the claim
hold — the sufficiency check passes and DeductStock succeeds — but the Go
int subtraction 5 - q wraps: the written value is 5 - 2^63, strictly
below the old stock, so this negative quantity strictly decreases the
stored stock instead of increasing it. -/
theorem c10_min_int64_wrap_counterexample :
    ((fun _ => some 5 : StockTable) 101 = some 5 ∧ (0 : Int) ≤ 5 ∧
      (-(2 ^ 63) : Int) ≤ 0) ∧
    DeductStock (fun _ => some 5) 101 (-(2 ^ 63)) noDeductFaults
      = Except.ok (setStock (fun _ => some 5) 101 (5 - 2 ^ 63)) ∧
    (5 - 2 ^ 63 : Int) < 5 := by
  refine ⟨⟨rfl, by decide, by decide⟩, ?_, by decide⟩
  have hns : ¬ (stockOf (fun _ => some 5 : StockTable) 101 < -(2 ^ 63)) := by
    decide
  have hw : wrapInt64 (stockOf (fun _ => some 5 : StockTable) 101 - -(2 ^ 63))
      = 5 - 2 ^ 63 := by decide
  simp only [DeductStock, noDeductFaults, if_neg hns, Bool.false_eq_true,
    if_false, hw]

/-- Claim C10 (amended): no positivity check on the quantity exists in
DeductStock or handleOrderCreated: for stored stock s with 0 <= s and any
quantity q <= 0 the sufficiency check does not trigger and DeductStock
succeeds, writing the two's-complement int64 wrap of s - q; whenever
s - q does not overflow int64 the written value is exactly s - q, so an
in-range strictly negative quantity strictly increases the stored stock
(an overflowing one such as math.MinInt64 wraps negative instead, see the
counterexample); the handler acks such a message with the wrapped value
written back. -/
theorem c10_negative_quantity_increases_stock :
    (∀ (tbl : StockTable) (sku : Nat) (s q : Int),
      tbl sku = some s → 0 ≤ s → q ≤ 0 →
      ¬ (stockOf tbl sku < q) ∧
      DeductStock tbl sku q noDeductFaults
        = Except.ok (setStock tbl sku (wrapInt64 (s - q))) ∧
      (s - q < 2 ^ 63 →
        wrapInt64 (s - q) = s - q ∧ (q < 0 → s < wrapInt64 (s - q)))) ∧
    (∀ (ws : WorkerState) (m : OrderMessage) (s : Int),
      ws.markers m.orderID = false → ws.stock m.skuID = some s → 0 ≤ s →
      m.quantity ≤ 0 →
      (handleOrderCreated ws (Body.msg m) noHandleFaults).ret = none ∧
      (handleOrderCreated ws (Body.msg m) noHandleFaults).state.stock m.skuID
        = some (wrapInt64 (s - m.quantity))) := by
  constructor
  · intro tbl sku s q htbl hs hq
    have hst : stockOf tbl sku = s := by simp [stockOf, htbl]
    have hns : ¬ (s < q) := not_lt.mpr (hq.trans hs)
    refine ⟨by rw [hst]; exact hns, ?_, ?_⟩
    · simp [DeductStock, noDeductFaults, hst, hns]
    · intro hov
      have hlo : -(2 ^ 63) ≤ s - q := by
        have hp : (0 : Int) < 2 ^ 63 := by norm_num
        linarith
      have hwr : wrapInt64 (s - q) = s - q := wrapInt64_eq_of_range hlo hov
      exact ⟨hwr, fun hq0 => by rw [hwr]; linarith⟩
  · intro ws m s hm htbl hs hq
    have hst : stockOf ws.stock m.skuID = s := by simp [stockOf, htbl]
    have hns : ¬ (s < m.quantity) := not_lt.mpr (hq.trans hs)
    simp [handleOrderCreated, DeductStock, noHandleFaults, noDeductFaults, hm,
      hst, hns, setStock]

/-- Witness for C10 (amended): stock 5 and quantity -3 stay in range, so
the wrap is the identity and the stock strictly increases to 8. -/
theorem c10_negative_quantity_increases_stock_witness :
    ¬ (stockOf (fun _ => some 5) 101 < (-3 : Int)) ∧
    DeductStock (fun _ => some 5) 101 (-3) noDeductFaults
      = Except.ok (setStock (fun _ => some 5) 101 (wrapInt64 (5 - (-3)))) ∧
    ((5 : Int) - (-3) < 2 ^ 63 →
      wrapInt64 (5 - (-3)) = 5 - (-3) ∧
      ((-3 : Int) < 0 → (5 : Int) < wrapInt64 (5 - (-3)))) :=
  c10_negative_quantity_increases_stock.1 (fun _ => some 5) 101 5 (-3)
    rfl (by decide) (by decide)

end GoMall
